import Mathlib

/-!
Verification development for the school-map data pipeline.

This file gives a shallow embedding, in Lean 4, of the data-ingestion and
query core of the repository: the markdown record parser
(src/src/utils/dataParser.ts), the filter and search query layer
(src/src/utils/exportUtils.ts filterSchools and
src/src/utils/performanceOptimizations.ts), and the geocoder, geocoding
cache and validator (the geocoder and dataValidator modules bundled in
src/src/utils/dataParser.test.ts).

Strings are embedded as lists of characters (type Str below) and the
JavaScript string operations and the concrete regular expressions used by
the code are translated into executable structural recursions over Str.
JavaScript numbers are embedded as rationals where fractional arithmetic
matters (confidence scores, coordinates) and as naturals or integers where
the code only handles integers; a possibly-NaN integer result of parseInt
is embedded as the two-constructor type JsNum.
-/

namespace SchoolMap

/-- Strings are embedded as lists of characters. -/
abbrev Str := List Char

/-- JavaScript whitespace recognised by String.prototype.trim and the regex
class backslash-s, restricted to the characters that can occur in this
code base (ASCII whitespace plus no-break space). -/
def jsWhitespace (c : Char) : Bool :=
  c = ' ' || c = '\t' || c = '\n' || c = '\x0d' || c = '\x0b' || c = '\x0c' || c = ' '

/-- ASCII lower-casing of one character, the effect of
String.prototype.toLowerCase on the ASCII strings handled here. -/
def lowerChar (c : Char) : Char :=
  if 'A' ≤ c && c ≤ 'Z' then Char.ofNat (c.toNat + 32) else c

/-- Embedding of String.prototype.toLowerCase. -/
def lowerStr (s : Str) : Str := s.map lowerChar

/-- Embedding of String.prototype.trim. -/
def trimStr (s : Str) : Str :=
  ((s.dropWhile jsWhitespace).reverse.dropWhile jsWhitespace).reverse

/-- Embedding of String.prototype.includes: does needle occur as a
contiguous substring of hay. -/
def containsSub (needle : Str) : Str → Bool
  | [] => needle.isPrefixOf []
  | c :: rest => needle.isPrefixOf (c :: rest) || containsSub needle rest

/-- Decimal digit character for a value below ten. -/
def digitChar (n : Nat) : Char := Char.ofNat (48 + n)

/-- Decimal digits of a natural number, fuel-driven so that it reduces by
structural recursion. -/
def natDigits : Nat → Nat → Str
  | 0, _ => []
  | fuel + 1, n => if n < 10 then [digitChar n] else natDigits fuel (n / 10) ++ [digitChar (n % 10)]

/-- Decimal rendering of a natural number, the effect of JavaScript template
interpolation of a nonnegative integer. -/
def natToStr (n : Nat) : Str := natDigits (n + 1) n

/-- Numeric value of a string of decimal digits, the effect of parseInt on
an all-digit string. -/
def digitsToNat (s : Str) : Nat := s.foldl (fun a c => a * 10 + (c.toNat - 48)) 0

/-- A JavaScript number that is known to be either a nonnegative integer or
NaN: the possible results of parseInt on a digits-and-commas capture group. -/
inductive JsNum where
  | nan : JsNum
  | num : Nat → JsNum
deriving DecidableEq, Repr

/-- parseInt applied to a digit string from which the thousands separators
were already stripped: NaN exactly when no digit is left. -/
def jsParseIntDigits (s : Str) : JsNum :=
  if s = [] then JsNum.nan else JsNum.num (digitsToNat s)

/-- Collapse every maximal whitespace run into one space: the effect of
replace with the global regex of one-or-more whitespace and a single space
replacement.  The Boolean argument records whether the previous character
belonged to a whitespace run that already emitted its space. -/
def collapseWsAux : Bool → Str → Str
  | _, [] => []
  | prevWs, c :: rest =>
    if jsWhitespace c then
      if prevWs then collapseWsAux true rest else ' ' :: collapseWsAux true rest
    else c :: collapseWsAux false rest

/-- Embedding of value.replace of all whitespace runs by one space. -/
def collapseWs (s : Str) : Str := collapseWsAux false s

/-- Embedding of String.prototype.split on the newline character:
"a\nb".split gives ["a", "b"] and "".split gives [""]. -/
def splitOnNl : Str → List Str
  | [] => [[]]
  | '\n' :: rest => [] :: splitOnNl rest
  | c :: rest =>
    match splitOnNl rest with
    | [] => [[c]]
    | l :: ls => (c :: l) :: ls

/-! ## Data model (src/src/types/School.ts) -/

/-- The SchoolType enumeration. -/
inductive SchoolType where
  | GRAMMAR | PRIVATE | STATE_PRIMARY | STATE_PRIMARY_FAITH | COMPREHENSIVE
deriving DecidableEq, Repr

/-- The Gender enumeration. -/
inductive Gender where
  | BOYS | GIRLS | COED
deriving DecidableEq, Repr

/-- The Level enumeration. -/
inductive Level where
  | PRIMARY | SECONDARY
deriving DecidableEq, Repr

/-- The County enumeration. -/
inductive County where
  | LONDON | BUCKINGHAMSHIRE | KENT
deriving DecidableEq, Repr

/-- The SchoolColor enumeration; each constructor carries a fixed hex string
in the source, listed in colorHex below. -/
inductive SchoolColor where
  | GIRLS_SECONDARY | GIRLS_PRIMARY | BOYS_SECONDARY | BOYS_PRIMARY
  | COED_SECONDARY | COED_PRIMARY | OTHER
deriving DecidableEq, Repr

/-- The hex string value of each SchoolColor enum member. -/
def colorHex : SchoolColor → Str
  | SchoolColor.GIRLS_SECONDARY => "#FF69B4".data
  | SchoolColor.GIRLS_PRIMARY => "#9370DB".data
  | SchoolColor.BOYS_SECONDARY => "#00008B".data
  | SchoolColor.BOYS_PRIMARY => "#87CEEB".data
  | SchoolColor.COED_SECONDARY => "#228B22".data
  | SchoolColor.COED_PRIMARY => "#FFD700".data
  | SchoolColor.OTHER => "#FF0000".data

/-- Geographic coordinates; JavaScript float components embedded as
rationals. -/
structure Coordinates where
  lat : ℚ
  lng : ℚ
deriving DecidableEq, Repr

/-- The Cost structure.  amount is a parseInt result and so possibly NaN;
voluntaryContribution and includesVAT are optional exactly as in the
TypeScript interface. -/
structure Cost where
  amount : JsNum
  currency : Str
  period : Str
  isFree : Bool
  voluntaryContribution : Option JsNum := none
  includesVAT : Option Bool := none
deriving DecidableEq, Repr

/-- The ranking substructure of School. -/
structure Ranking where
  position : Nat
  total : Option Nat := none
  source : Str
  year : Option Nat := none
deriving DecidableEq, Repr

/-- The School record.  TypeScript optional fields are embedded as Option;
fields the claims never touch (ofstedRating, successRates, transport,
admissions) are omitted since no embedded operation reads or writes them. -/
structure School where
  id : Str
  name : Str
  schoolType : SchoolType
  gender : Gender
  level : Level
  address : Str
  postcode : Str
  coordinates : Option Coordinates := none
  ranking : Option Ranking := none
  cost : Cost
  competitiveness : Nat
  notes : Str
  website : Option Str := none
  borough : Str
  county : County
  color : SchoolColor
  boardingOptions : Option Str := none
  religiousAffiliation : Option Str := none
deriving DecidableEq, Repr

/-! ## Record parser (src/src/utils/dataParser.ts) -/

/-- parseSchoolType: ordered substring matching with Grammar as the final
fallback (dataParser.ts lines 114 to 121). -/
def parseSchoolType (value : Str) : SchoolType :=
  if containsSub "Grammar".data value then SchoolType.GRAMMAR
  else if containsSub "Private".data value then SchoolType.PRIVATE
  else if containsSub "State Primary (Faith)".data value then SchoolType.STATE_PRIMARY_FAITH
  else if containsSub "State Primary".data value then SchoolType.STATE_PRIMARY
  else if containsSub "Comprehensive".data value then SchoolType.COMPREHENSIVE
  else SchoolType.GRAMMAR

/-- parseGender (dataParser.ts lines 123 to 127). -/
def parseGender (value : Str) : Gender :=
  if containsSub "Boys".data value then Gender.BOYS
  else if containsSub "Girls".data value then Gender.GIRLS
  else Gender.COED

/-- parseLevel (dataParser.ts lines 129 to 131). -/
def parseLevel (value : Str) : Level :=
  if containsSub "Primary".data value then Level.PRIMARY else Level.SECONDARY

/-- Character class of the hex-digit set A-F and 0-9 used by the color
regexes. -/
def isHexUp (c : Char) : Bool := ('A' ≤ c && c ≤ 'F') || c.isDigit

/-- First match of the regex hash followed by exactly six characters of the
class A-F 0-9, returning the captured six characters; the scan restarts one
character later after a failed attempt, as the regex engine does. -/
def findHexAfterHash : Str → Option Str
  | [] => none
  | '#' :: rest =>
    if (rest.take 6).length = 6 && (rest.take 6).all isHexUp then some (rest.take 6)
    else findHexAfterHash rest
  | _ :: rest => findHexAfterHash rest

/-- Lookup of a hex string among the SchoolColor enum values
(the Object.entries loop of parseColor). -/
def colorOfHexStr (s : Str) : SchoolColor :=
  if s = colorHex SchoolColor.GIRLS_SECONDARY then SchoolColor.GIRLS_SECONDARY
  else if s = colorHex SchoolColor.GIRLS_PRIMARY then SchoolColor.GIRLS_PRIMARY
  else if s = colorHex SchoolColor.BOYS_SECONDARY then SchoolColor.BOYS_SECONDARY
  else if s = colorHex SchoolColor.BOYS_PRIMARY then SchoolColor.BOYS_PRIMARY
  else if s = colorHex SchoolColor.COED_SECONDARY then SchoolColor.COED_SECONDARY
  else if s = colorHex SchoolColor.COED_PRIMARY then SchoolColor.COED_PRIMARY
  else SchoolColor.OTHER

/-- parseColor (dataParser.ts lines 133 to 147). -/
def parseColor (value : Str) : SchoolColor :=
  match findHexAfterHash value with
  | none => SchoolColor.OTHER
  | some h => colorOfHexStr ('#' :: h)

/-- Character class of digits and the comma, the capture class of the cost
regexes. -/
def isDigitComma (c : Char) : Bool := c.isDigit || c = ','

/-- First match of the regex pound-sign followed by one or more characters
of the class digits-or-comma, returning the greedy capture group. -/
def findPoundAmount : Str → Option Str
  | [] => none
  | '£' :: rest =>
    match rest with
    | d :: _ => if isDigitComma d then some (rest.takeWhile isDigitComma) else findPoundAmount rest
    | [] => none
  | _ :: rest => findPoundAmount rest

/-- Attempt, at the start of the (already lower-cased) string, of the
case-insensitive regex: the literal voluntary, then a greedy run of
non-pound characters, then a pound sign, then one or more
digits-or-commas.  The non-pound run cannot backtrack across a pound sign,
so the pound consumed is the first one after the literal. -/
def voluntaryAt (s : Str) : Option Str :=
  if "voluntary".data.isPrefixOf s then
    let rest := s.drop 9
    match rest.dropWhile (fun c => c ≠ '£') with
    | '£' :: r =>
      match r with
      | d :: _ => if isDigitComma d then some (r.takeWhile isDigitComma) else none
      | [] => none
    | _ => none
  else none

/-- First match of the voluntary-contribution regex over all start
positions. -/
def findVoluntary : Str → Option Str
  | [] => voluntaryAt []
  | c :: rest =>
    match voluntaryAt (c :: rest) with
    | some g => some g
    | none => findVoluntary rest

/-- parseCost (dataParser.ts lines 149 to 184).  The free branch fires when
the lower-cased text contains the word free; otherwise the first
pound-amount match decides between the fee branch and the final free
fallback.  Captured groups have their commas stripped before parseInt. -/
def parseCost (value : Str) : Cost :=
  if containsSub "free".data (lowerStr value) then
    let vol := findVoluntary (lowerStr value)
    { amount := JsNum.num 0, currency := "GBP".data, period := "year".data, isFree := true,
      voluntaryContribution := vol.map (fun g => jsParseIntDigits (g.filter (fun c => c ≠ ','))),
      includesVAT := some false }
  else
    match findPoundAmount value with
    | some g =>
      { amount := jsParseIntDigits (g.filter (fun c => c ≠ ',')), currency := "GBP".data,
        period := "year".data, isFree := false,
        includesVAT := some (containsSub "(inc. VAT)".data value) }
    | none =>
      { amount := JsNum.num 0, currency := "GBP".data, period := "year".data, isFree := true }

/-- First maximal digit run of a string: the capture of the regex of
one-or-more digits with an optional ordinal suffix, whose suffix does not
constrain the match. -/
def findFirstDigitRun : Str → Option Str
  | [] => none
  | c :: rest => if c.isDigit then some ((c :: rest).takeWhile Char.isDigit) else findFirstDigitRun rest

/-- First match of the case-insensitive regex: literal top, one or more
whitespace characters, then a captured digit run. -/
def findTopNumber : Str → Option Str
  | [] => none
  | c :: rest =>
    if "top".data.isPrefixOf (lowerStr (c :: rest)) then
      let after := (c :: rest).drop 3
      let ws := after.takeWhile jsWhitespace
      if ws = [] then findTopNumber rest
      else
        match after.drop ws.length with
        | d :: ds => if d.isDigit then some ((d :: ds).takeWhile Char.isDigit) else findTopNumber rest
        | [] => findTopNumber rest
    else findTopNumber rest

/-- First window of four consecutive digits: the match of the regex of
exactly four digits, which carries no boundary requirement. -/
def findFourDigits : Str → Option Str
  | [] => none
  | c :: rest =>
    if ((c :: rest).take 4).length = 4 && ((c :: rest).take 4).all Char.isDigit
    then some ((c :: rest).take 4)
    else findFourDigits rest

/-- parseRanking (dataParser.ts lines 186 to 209). -/
def parseRanking (value : Str) : Option Ranking :=
  if value = [] || trimStr value = [] then none
  else
    let positionMatch := findFirstDigitRun value
    let topMatch := findTopNumber value
    let yearMatch := findFourDigits value
    let position :=
      match positionMatch with
      | some ds => digitsToNat ds
      | none =>
        match topMatch with
        | some ds => digitsToNat ds
        | none => 50
    some { position := position, source := value, year := yearMatch.map digitsToNat }

/-- parseCompetitiveness (dataParser.ts lines 243 to 249): the first single
digit directly followed by a slash and the digit five, defaulting to 3. -/
def parseCompetitiveness : Str → Nat
  | [] => 3
  | c :: rest =>
    match rest with
    | s :: f :: _ =>
      if c.isDigit && s = '/' && f = '5' then c.toNat - 48 else parseCompetitiveness rest
    | _ => 3

/-- Uppercase letter class A-Z of the postcode regex. -/
def isUpperAZ (c : Char) : Bool := 'A' ≤ c && c ≤ 'Z'

/-- Does the string start with n characters of the given class, and if so
what follows them. -/
def takeClass (p : Char → Bool) (n : Nat) (s : Str) : Option (Str × Str) :=
  if (s.take n).length = n && (s.take n).all p then some (s.take n, s.drop n) else none

/-- Attempt of the UK postcode regex at the start of the string: one-or-two
uppercase letters, one-or-two digits, an optional uppercase letter, an
optional whitespace character, a digit and two uppercase letters.  The
quantifiers are greedy and backtrack right-to-left, so the alternatives
are tried in lexicographic order with longer counts first. -/
def pcMatchAt (s : Str) : Option Str :=
  let tryOne := fun (l d ol ow : Nat) =>
    match takeClass isUpperAZ l s with
    | none => none
    | some (g1, r1) =>
      match takeClass Char.isDigit d r1 with
      | none => none
      | some (g2, r2) =>
        match takeClass isUpperAZ ol r2 with
        | none => none
        | some (g3, r3) =>
          match takeClass jsWhitespace ow r3 with
          | none => none
          | some (g4, r4) =>
            match takeClass Char.isDigit 1 r4 with
            | none => none
            | some (g5, r5) =>
              match takeClass isUpperAZ 2 r5 with
              | none => none
              | some (g6, _) => some (g1 ++ g2 ++ g3 ++ g4 ++ g5 ++ g6)
  let choices := [(2,2,1,1), (2,2,1,0), (2,2,0,1), (2,2,0,0),
                  (2,1,1,1), (2,1,1,0), (2,1,0,1), (2,1,0,0),
                  (1,2,1,1), (1,2,1,0), (1,2,0,1), (1,2,0,0),
                  (1,1,1,1), (1,1,1,0), (1,1,0,1), (1,1,0,0)]
  choices.foldr (fun c acc =>
    match tryOne c.1 c.2.1 c.2.2.1 c.2.2.2 with
    | some g => some g
    | none => acc) none

/-- First match of the postcode regex over all start positions. -/
def findPostcode : Str → Option Str
  | [] => none
  | c :: rest =>
    match pcMatchAt (c :: rest) with
    | some g => some g
    | none => findPostcode rest

/-- One step of the county detection of parseAddressInfo: the else-if chain
over the three county header markers, keeping the accumulator when none
matches. -/
def countyMark (line : Str) (c : County) : County :=
  if containsSub "LONDON SCHOOLS".data line then County.LONDON
  else if containsSub "BUCKINGHAMSHIRE SCHOOLS".data line then County.BUCKINGHAMSHIRE
  else if containsSub "KENT SCHOOLS".data line then County.KENT
  else c

/-- Is the trimmed line a borough header: it starts with three hashes and a
space and does not contain the word SCHOOLS. -/
def isBoroughHeader (line : Str) : Bool :=
  "### ".data.isPrefixOf line && !containsSub "SCHOOLS".data line

/-- The borough name of a borough header: the line with the leading hashes
and the following whitespace run removed, then trimmed. -/
def boroughOf (line : Str) : Str :=
  trimStr ((line.drop 3).dropWhile jsWhitespace)

/-- The backward scan of parseAddressInfo (dataParser.ts lines 220 to 238):
walk the line index down to zero, threading the county accumulator through
the else-if chain, and stop at the first borough header. -/
def scanCtx (lines : List Str) : Nat → County → County × Str
  | 0, c =>
    let line := trimStr (lines.getD 0 [])
    let c2 := countyMark line c
    if isBoroughHeader line then (c2, boroughOf line) else (c2, [])
  | j + 1, c =>
    let line := trimStr (lines.getD (j + 1) [])
    let c2 := countyMark line c
    if isBoroughHeader line then (c2, boroughOf line) else scanCtx lines j c2

/-- parseAddressInfo (dataParser.ts lines 211 to 241): the postcode is the
first match of the postcode regex in the address, defaulting to the empty
string, and county and borough come from the backward scan starting at the
current line with London as the initial county. -/
def parseAddressInfo (address : Str) (i : Nat) (lines : List Str) : Str × County × Str :=
  let postcode := (findPostcode address).getD []
  let cb := scanCtx lines i County.LONDON
  (postcode, cb.1, cb.2)

/-- Is the trimmed line a legend line: it starts with a dash and bold
markers, contains an open-parenthesis-hash, and contains
close-parenthesis-colon-bold (dataParser.ts line 23). -/
def isLegendLine (line : Str) : Bool :=
  "- **".data.isPrefixOf line && containsSub "(#".data line && containsSub "):**".data line

/-- First match of the legend color regex: open parenthesis, hash, exactly
six characters of the class A-F 0-9, close parenthesis; the capture is the
six hex characters. -/
def legendColorMatch : Str → Option Str
  | [] => none
  | '(' :: rest =>
    match rest with
    | '#' :: hx =>
      if (hx.take 6).length = 6 && (hx.take 6).all isHexUp && ((hx.drop 6).headD ' ' = ')')
      then some (hx.take 6)
      else legendColorMatch rest
    | _ => legendColorMatch rest
  | _ :: rest => legendColorMatch rest

/-- First match of the legend label regex: two stars, a greedy nonempty run
of non-star characters, two stars; the capture is the run. -/
def legendTypeMatch : Str → Option Str
  | [] => none
  | '*' :: rest =>
    match rest with
    | '*' :: body =>
      let run := body.takeWhile (fun c => c ≠ '*')
      if run ≠ [] && (body.drop run.length |>.take 2) = ['*', '*']
      then some run
      else legendTypeMatch rest
    | _ => legendTypeMatch rest
  | _ :: rest => legendTypeMatch rest

/-- Strip one trailing colon from a legend label (the replace of the regex
colon-at-end). -/
def stripTrailingColon (s : Str) : Str :=
  if s.getLast? = some ':' then s.dropLast else s

/-- Insertion into a JavaScript object or Map viewed as an association list
in insertion order: an existing key is updated in place, a new key is
appended. -/
def jsMapSet {α : Type} : List (Str × α) → Str → α → List (Str × α)
  | [], k, v => [(k, v)]
  | (k2, v2) :: rest, k, v =>
    if k2 = k then (k2, v) :: rest else (k2, v2) :: jsMapSet rest k v

/-- Match of the anchored school header regex (dataParser.ts line 35): two
stars, a captured digit run, a dot, one-or-more whitespace characters, a
lazily captured nonempty name, two stars at the end of the line.  The
greedy whitespace run gives characters back to the name only when the name
would otherwise be empty. -/
def headerMatch (line : Str) : Option (Str × Str) :=
  match line with
  | '*' :: '*' :: rest =>
    let ds := rest.takeWhile Char.isDigit
    if ds = [] then none
    else
      match rest.drop ds.length with
      | '.' :: tot =>
        let maxRun := (tot.takeWhile jsWhitespace).length
        if tot.length < 4 || maxRun = 0 || tot.drop (tot.length - 2) ≠ ['*', '*'] then none
        else
          let k := min maxRun (tot.length - 3)
          some (ds, (tot.drop k).take (tot.length - 2 - k))
      | _ => none
  | _ => none

/-- Match of the anchored property regex (dataParser.ts line 66): dash,
space, two stars, a captured nonempty run of non-star characters ending in
a colon, two stars, a greedy whitespace run, and a captured nonempty value
reaching the end of the line.  The key is the run without its colon. -/
def propMatch (line : Str) : Option (Str × Str) :=
  match line with
  | '-' :: ' ' :: '*' :: '*' :: rest =>
    let run := rest.takeWhile (fun c => c ≠ '*')
    match rest.drop run.length with
    | '*' :: '*' :: tail =>
      if run.getLast? ≠ some ':' || run.dropLast = [] then none
      else
        let wsMax := (tail.takeWhile jsWhitespace).length
        let value := tail.drop (min wsMax (tail.length - 1))
        if value = [] then none else some (run.dropLast, value)
    | _ => none
  | _ => none

/-- The accumulator a school header initializes (dataParser.ts lines 44 to
60): the id is the captured digit string, the name the captured name, and
every other field its default. -/
def initSchool (ds name : Str) : School :=
  { id := ds, name := name, address := [], postcode := [], borough := [],
    county := County.LONDON, schoolType := SchoolType.GRAMMAR, gender := Gender.COED,
    level := Level.SECONDARY, color := SchoolColor.OTHER,
    cost := { amount := JsNum.num 0, currency := "GBP".data, period := "year".data, isFree := true },
    competitiveness := 3, notes := [], website := some [],
    coordinates := some { lat := 0, lng := 0 } }

/-- The completeness predicate isValidSchool (dataParser.ts lines 251 to
267).  The truthiness checks on the enumeration fields, the cost object,
competitiveness and notes are identically true in the accumulator (enum
values are nonempty strings and those fields are always initialized), so
only the five string fields can fail. -/
def isValidSchool (s : School) : Bool :=
  s.id ≠ [] && s.name ≠ [] && s.address ≠ [] && s.postcode ≠ [] && s.borough ≠ []

/-- Dispatch of one property line onto the accumulator (the switch of
dataParser.ts lines 70 to 101); i is the index of the current line and
lines the raw line array, both needed by the Address case. -/
def applyProp (lines : List Str) (i : Nat) (sch : School) (key value : Str) : School :=
  if key = "School Type".data then { sch with schoolType := parseSchoolType value }
  else if key = "Type".data then
    { sch with gender := parseGender value, level := parseLevel value }
  else if key = "Color".data then { sch with color := parseColor value }
  else if key = "Address".data then
    let info := parseAddressInfo value i lines
    { sch with address := value, postcode := info.1, borough := info.2.2, county := info.2.1 }
  else if key = "Ranking".data then { sch with ranking := parseRanking value }
  else if key = "Annual Cost".data then { sch with cost := parseCost value }
  else if key = "Competitiveness".data then
    { sch with competitiveness := parseCompetitiveness value }
  else if key = "Notes".data then { sch with notes := value }
  else sch

/-- The mutable state of the parsing loop. -/
structure PState where
  schools : List School
  colorCoding : List (Str × Str)
  current : Option School
deriving Repr

/-- Flush the open accumulator into the output when it passes the
completeness predicate, dropping it silently otherwise. -/
def flushCurrent (st : PState) : List School :=
  match st.current with
  | none => st.schools
  | some sch => if isValidSchool sch then st.schools ++ [sch] else st.schools

/-- One iteration of the parsing loop (dataParser.ts lines 19 to 104) on
the raw line at index i. -/
def parseStep (lines : List Str) (i : Nat) (st : PState) (raw : Str) : PState :=
  let line := trimStr raw
  if isLegendLine line then
    match legendColorMatch line, legendTypeMatch line with
    | some hx, some label =>
      { st with colorCoding := jsMapSet st.colorCoding (stripTrailingColon label) ('#' :: hx) }
    | _, _ => st
  else
    match headerMatch line with
    | some (ds, name) =>
      { schools := flushCurrent st, colorCoding := st.colorCoding,
        current := some (initSchool ds name) }
    | none =>
      match st.current with
      | none => st
      | some sch =>
        if "- **".data.isPrefixOf line then
          match propMatch line with
          | some (key, value) =>
            { st with current := some (applyProp lines i sch key value) }
          | none => st
        else st

/-- The loop over all lines, carrying the running index. -/
def parseLines (lines : List Str) : List Str → Nat → PState → PState
  | [], _, st => st
  | raw :: rest, i, st => parseLines lines rest (i + 1) (parseStep lines i st raw)

/-- The result pair of parseSchoolData. -/
structure ParsedSchoolData where
  schools : List School
  colorCoding : List (Str × Str)
deriving Repr

/-- parseSchoolData (dataParser.ts lines 11 to 112): split the document on
newlines, run the line loop from an empty state, and flush the last open
accumulator. -/
def parseSchoolData (content : Str) : ParsedSchoolData :=
  let lines := splitOnNl content
  let st := parseLines lines lines 0 { schools := [], colorCoding := [], current := none }
  { schools := flushCurrent st, colorCoding := st.colorCoding }

/-! ## Filter layer (filterSchools, bundled in src/src/utils/exportUtils.ts) -/

/-- An optional numeric bound pair with possibly-absent ends, as the
costRange and rankingRange objects of SchoolFilters. -/
structure BoundPair where
  min : Option Int := none
  max : Option Int := none
deriving DecidableEq, Repr

/-- The SchoolFilters criteria object; every dimension optional. -/
structure SchoolFilters where
  schoolTypes : Option (List SchoolType) := none
  genders : Option (List Gender) := none
  levels : Option (List Level) := none
  costRange : Option BoundPair := none
  competitiveness : Option (List Nat) := none
  counties : Option (List County) := none
  boroughs : Option (List Str) := none
  rankingRange : Option BoundPair := none
  religiousAffiliation : Option (List Str) := none
  boardingOptions : Option (List Str) := none
deriving DecidableEq, Repr

/-- Comparison of a possibly-NaN number with an integer bound: a NaN
comparison is false, so a NaN cost passes every bound check. -/
def jsNumLtInt (a : JsNum) (b : Int) : Bool :=
  match a with
  | JsNum.nan => false
  | JsNum.num n => (n : Int) < b

/-- Comparison of a possibly-NaN number with an integer bound. -/
def jsNumGtInt (a : JsNum) (b : Int) : Bool :=
  match a with
  | JsNum.nan => false
  | JsNum.num n => b < (n : Int)

/-- The per-school predicate of filterSchools (exportUtils.ts bundle lines
436 to 515): each supplied dimension can reject the school, and a school
that no dimension rejects is kept. -/
def schoolPassesFilters (f : SchoolFilters) (s : School) : Bool :=
  (match f.schoolTypes with
   | some ts => ts.length = 0 || ts.contains s.schoolType
   | none => true) &&
  (match f.genders with
   | some gs => gs.length = 0 || gs.contains s.gender
   | none => true) &&
  (match f.levels with
   | some ls => ls.length = 0 || ls.contains s.level
   | none => true) &&
  (match f.counties with
   | some cs => cs.length = 0 || cs.contains s.county
   | none => true) &&
  (match f.costRange with
   | some r =>
     (match r.min with
      | some mn => !jsNumLtInt s.cost.amount mn
      | none => true) &&
     (match r.max with
      | some mx => !jsNumGtInt s.cost.amount mx
      | none => true)
   | none => true) &&
  (match f.competitiveness with
   | some cs => cs.length = 0 || cs.contains s.competitiveness
   | none => true) &&
  (match f.rankingRange with
   | some r =>
     match s.ranking with
     | none => false
     | some rk =>
       (match r.min with
        | some mn => !((rk.position : Int) < mn)
        | none => true) &&
       (match r.max with
        | some mx => !(mx < (rk.position : Int))
        | none => true)
   | none => true) &&
  (match f.boardingOptions with
   | some bs =>
     bs.length = 0 ||
       (match s.boardingOptions with
        | some b => bs.contains b
        | none => false)
   | none => true) &&
  (match f.religiousAffiliation with
   | some rs =>
     rs.length = 0 ||
       (match s.religiousAffiliation with
        | some r => rs.contains r
        | none => false)
   | none => true)

/-- Does the filters object carry no key.  The source takes an early return
when Object.keys is empty; a criteria object whose keys are all undefined
behaves identically through the per-school predicate, so the embedding
identifies the two. -/
def noFilterKeys (f : SchoolFilters) : Bool :=
  f.schoolTypes.isNone && f.genders.isNone && f.levels.isNone && f.costRange.isNone &&
  f.competitiveness.isNone && f.counties.isNone && f.boroughs.isNone &&
  f.rankingRange.isNone && f.religiousAffiliation.isNone && f.boardingOptions.isNone

/-- filterSchools (exportUtils.ts bundle lines 431 to 516). -/
def filterSchools (schools : List School) (f : SchoolFilters) : List School :=
  if noFilterKeys f then schools else schools.filter (schoolPassesFilters f)

/-! ## Optimized filter and search (src/src/utils/performanceOptimizations.ts)

Both operations are wrapped in a TTL memoization in the source; the
embedding is of the underlying pure computation, which every cache hit
merely replays. -/

/-- The looser criteria object optimizedSchoolFilter receives: list-valued
dimensions plus tuple ranges. -/
structure OptFilters where
  schoolType : Option (List SchoolType) := none
  gender : Option (List Gender) := none
  level : Option (List Level) := none
  costRange : Option (Int × Int) := none
  competitiveness : Option (Int × Int) := none
  borough : Option (List Str) := none
  ranking : Option (Int × Int) := none
deriving DecidableEq, Repr

/-- The cost a school presents to the cost-range filter: zero when free,
else the parsed amount (performanceOptimizations.ts line 137). -/
def filterCost (s : School) : JsNum :=
  if s.cost.isFree then JsNum.num 0 else s.cost.amount

/-- Comparison chain cost between two integer bounds with NaN rejected. -/
def jsNumBetween (a : JsNum) (mn mx : Int) : Bool :=
  match a with
  | JsNum.nan => false
  | JsNum.num n => mn ≤ (n : Int) && (n : Int) ≤ mx

/-- optimizedSchoolFilter (performanceOptimizations.ts lines 108 to 175):
a pipeline of conditional filters; the ranking filter is consulted only
when the supplied bounds satisfy min above one or max below one thousand. -/
def optimizedSchoolFilter (schools : List School) (f : OptFilters) : List School :=
  let f1 := match f.schoolType with
    | some ts => if ts.length > 0 then schools.filter (fun s => ts.contains s.schoolType) else schools
    | none => schools
  let f2 := match f.gender with
    | some gs => if gs.length > 0 then f1.filter (fun s => gs.contains s.gender) else f1
    | none => f1
  let f3 := match f.level with
    | some ls => if ls.length > 0 then f2.filter (fun s => ls.contains s.level) else f2
    | none => f2
  let f4 := match f.costRange with
    | some r => f3.filter (fun s => jsNumBetween (filterCost s) r.1 r.2)
    | none => f3
  let f5 := match f.competitiveness with
    | some r => f4.filter (fun s => r.1 ≤ (s.competitiveness : Int) && (s.competitiveness : Int) ≤ r.2)
    | none => f4
  let f6 := match f.borough with
    | some bs => if bs.length > 0 then f5.filter (fun s => bs.contains s.borough) else f5
    | none => f5
  match f.ranking with
  | some r =>
    if 1 < r.1 || r.2 < 1000 then
      f6.filter (fun s =>
        match s.ranking with
        | none => false
        | some rk => r.1 ≤ (rk.position : Int) && (rk.position : Int) ≤ r.2)
    else f6
  | none => f6

/-- The word-character class of the regex word boundary. -/
def isWordChar (c : Char) : Bool :=
  ('a' ≤ c && c ≤ 'z') || ('A' ≤ c && c ≤ 'Z') || c.isDigit || c = '_'

/-- Is the character at index i of the string a word character; out of
range counts as not. -/
def wordAt (s : Str) (i : Nat) : Bool :=
  match s.drop i with
  | [] => false
  | c :: _ => isWordChar c

/-- The regex word-boundary assertion at position i. -/
def boundaryAt (s : Str) (i : Nat) : Bool :=
  (if i = 0 then false else wordAt s (i - 1)) != wordAt s i

/-- Does the needle occur at position i of the hay. -/
def termAt (needle hay : Str) (i : Nat) : Bool := needle.isPrefixOf (hay.drop i)

/-- The contains regex: the escaped term anywhere, matched on lower-cased
text for the case-insensitive flag. -/
def reContains (needle hay : Str) : Bool :=
  (List.range (hay.length + 1)).any (termAt needle hay)

/-- The starts-with regex: the escaped term anchored at the start. -/
def reStarts (needle hay : Str) : Bool := termAt needle hay 0

/-- The exact-word regex: the escaped term between two word boundaries. -/
def reExact (needle hay : Str) : Bool :=
  (List.range (hay.length + 1)).any
    (fun i => termAt needle hay i && boundaryAt hay i && boundaryAt hay (i + needle.length))

/-- The additive relevance of one school for a search term
(performanceOptimizations.ts lines 193 to 216); every field is matched
case-insensitively against the already lower-cased term. -/
def relevanceOf (term : Str) (s : School) : Nat :=
  (let nm := lowerStr s.name
   if reExact term nm then 100 else if reStarts term nm then 80
   else if reContains term nm then 60 else 0) +
  (let ad := lowerStr s.address
   if reExact term ad then 50 else if reContains term ad then 30 else 0) +
  (let pc := lowerStr s.postcode
   if reExact term pc then 40 else if reStarts term pc then 25 else 0) +
  (let bo := lowerStr s.borough
   if reExact term bo then 35 else if reContains term bo then 20 else 0)

/-- One scored search result. -/
structure SearchHit where
  school : School
  relevance : Nat
deriving DecidableEq, Repr

/-- Descending order on relevance, the comparator of the result sort. -/
def hitGE (a b : SearchHit) : Prop := b.relevance ≤ a.relevance

instance : DecidableRel hitGE := fun a b => Nat.decLe b.relevance a.relevance

instance : IsTotal SearchHit hitGE :=
  ⟨fun a b => (Nat.le_total b.relevance a.relevance).elim Or.inl Or.inr⟩

instance : IsTrans SearchHit hitGE :=
  ⟨fun _ _ _ hab hbc => Nat.le_trans hbc hab⟩

/-- optimizedSchoolSearch (performanceOptimizations.ts lines 180 to 229):
empty or whitespace-only queries return the empty list; otherwise every
school is scored against the lower-cased trimmed term, zero scores are
dropped, the rest are sorted by descending relevance with a stable sort,
and the first fifty survive. -/
def optimizedSchoolSearch (schools : List School) (query : Str) : List SearchHit :=
  if trimStr query = [] then []
  else
    let term := trimStr (lowerStr query)
    let scored := schools.map (fun s => SearchHit.mk s (relevanceOf term s))
    let results := scored.filter (fun h => 0 < h.relevance)
    (results.insertionSort hitGE).take 50

/-! ## Geocoder (the geocoder module bundled in src/src/utils/dataParser.test.ts) -/

/-- One provider candidate as the Nominatim JSON delivers it: string
coordinates, a display name, classification tags and an importance score.
The importance is optional and a JavaScript number; the embedding uses a
rational. -/
structure Candidate where
  lat : Str
  lon : Str
  display_name : Str
  cls : Str
  typ : Str
  importance : Option ℚ := none
  addresstype : Str
deriving DecidableEq, Repr

/-- A resolved geocoding result. -/
structure GeocodingResult where
  coordinates : Coordinates
  formattedAddress : Option Str := none
  confidence : Option ℚ := none
deriving DecidableEq, Repr

/-- The GeocodingError code enumeration. -/
inductive GeoCode where
  | NETWORK_ERROR | RATE_LIMIT | NO_RESULTS | INVALID_ADDRESS
deriving DecidableEq, Repr

/-- A structured geocoding error. -/
structure GeocodingError where
  message : Str
  code : GeoCode
deriving DecidableEq, Repr

/-- calculateConfidence (geocoder bundle lines 250 to 267): a base of one
half, then three additive bonuses accumulated in order, then an upper cap
at one.  The importance bonus is guarded by JavaScript truthiness, so an
absent or zero importance adds nothing. -/
def calculateConfidence (r : Candidate) : ℚ :=
  let c0 : ℚ := 1/2
  let c1 := if r.cls = "amenity".data ∧ r.typ = "school".data then c0 + 3/10 else c0
  let c2 :=
    match r.importance with
    | some imp => if imp ≠ 0 then c1 + imp * (1/5) else c1
    | none => c1
  let c3 := if r.addresstype = "amenity".data then c2 + 1/5 else c2
  let c4 := if r.addresstype = "house".data then c3 + 1/10 else c3
  min c4 1

/-- handleError (geocoder bundle lines 269 to 295): classification of a
thrown error by its name and message, in source order. -/
def handleError (name message address : Str) : GeocodingError :=
  if containsSub "rate limit".data message || containsSub "429".data message then
    { message := "Rate limit exceeded for address: ".data ++ address, code := GeoCode.RATE_LIMIT }
  else if containsSub "No results".data message then
    { message := "No geocoding results found for address: ".data ++ address,
      code := GeoCode.NO_RESULTS }
  else if name = "TypeError".data || containsSub "Network error".data message
          || containsSub "fetch".data message then
    { message := "Network error while geocoding address: ".data ++ address ++ " - ".data ++ message,
      code := GeoCode.NETWORK_ERROR }
  else
    { message := "Invalid address or geocoding error: ".data ++ address ++ " - ".data ++ message,
      code := GeoCode.INVALID_ADDRESS }

/-- The outcome of the one fetch a geocodeAddress call performs: either the
promise rejects with an error carrying a name and a message, or a response
arrives with its ok flag, status, status text and parsed JSON body (None
standing for a null body). -/
inductive FetchOutcome where
  | throws (name message : Str)
  | response (ok : Bool) (status : Nat) (statusText : Str) (data : Option (List Candidate))
deriving Repr

/-- geocodeAddress (geocoder bundle lines 178 to 220) for a given fetch
outcome.  A rejected fetch, a non-ok response (thrown as an HTTP error and
caught) and an empty or null candidate list (thrown as a no-results error
and caught) all flow through handleError into a structured GeocodingError;
a candidate is turned into a result whose coordinates parse the provider
strings through the host float parser pf. -/
def geocodeAddress (pf : Str → ℚ) (outcome : FetchOutcome) (address : Str) :
    Except GeocodingError GeocodingResult :=
  match outcome with
  | FetchOutcome.throws name msg => Except.error (handleError name msg address)
  | FetchOutcome.response ok status statusText data =>
    if !ok then
      Except.error (handleError "Error".data
        ("HTTP ".data ++ natToStr status ++ ": ".data ++ statusText) address)
    else
      match data with
      | none => Except.error (handleError "Error".data "No results found for address".data address)
      | some [] =>
        Except.error (handleError "Error".data "No results found for address".data address)
      | some (r :: _) =>
        Except.ok
          { coordinates := { lat := pf r.lat, lng := pf r.lon },
            formattedAddress := some r.display_name,
            confidence := some (calculateConfidence r) }

/-! ## Geocoding cache (GeocodingCache, same bundle, lines 301 to 336) -/

/-- normalizeAddress: lower-case, trim, collapse internal whitespace. -/
def normalizeAddress (address : Str) : Str :=
  collapseWs (trimStr (lowerStr address))

/-- The cache state: the underlying Map as an association list in
insertion order. -/
abbrev CacheState := List (Str × GeocodingResult)

/-- The fixed capacity of the cache in the source. -/
def cacheMaxSize : Nat := 1000

/-- GeocodingCache.get. -/
def cacheGet (m : CacheState) (address : Str) : Option GeocodingResult :=
  (m.find? (fun p => p.1 = normalizeAddress address)).map Prod.snd

/-- GeocodingCache.has. -/
def cacheHas (m : CacheState) (address : Str) : Bool :=
  (m.find? (fun p => p.1 = normalizeAddress address)).isSome

/-- GeocodingCache.set for a capacity cap: when the map has reached the
capacity the entry under the first key of the iteration order is deleted,
then the normalized key is written.  The source fixes cap to cacheMaxSize;
the transition is stated for any capacity so that capacity-generic facts
can be expressed, and every instantiated statement uses cacheMaxSize or a
cap with the same role. -/
def cacheSet (cap : Nat) (m : CacheState) (address : Str) (v : GeocodingResult) : CacheState :=
  let m2 := if cap ≤ m.length then m.drop 1 else m
  jsMapSet m2 (normalizeAddress address) v

/-- One cache operation of the public interface. -/
inductive CacheOp where
  | get (address : Str)
  | set (address : Str) (v : GeocodingResult)
  | has (address : Str)
  | clear
deriving Repr

/-- The state transition of one cache operation: get and has do not write,
clear empties the map, set goes through the capacity check. -/
def cacheStep (cap : Nat) (m : CacheState) : CacheOp → CacheState
  | CacheOp.get _ => m
  | CacheOp.has _ => m
  | CacheOp.clear => []
  | CacheOp.set a v => cacheSet cap m a v

/-- Running a sequence of cache operations from the empty cache. -/
def cacheRun (cap : Nat) (ops : List CacheOp) : CacheState :=
  ops.foldl (cacheStep cap) []

/-! ## Validator (the dataValidator module bundled in
src/src/utils/dataParser.test.ts) -/

/-- isValidCoordinates (geocoder bundle lines 412 to 423): both components
in range.  The typeof and NaN guards of the source are identically true on
the rational embedding. -/
def isValidCoordinates (c : Coordinates) : Bool :=
  (-90 : ℚ) ≤ c.lat && c.lat ≤ 90 && (-180 : ℚ) ≤ c.lng && c.lng ≤ 180

/-- Issue severity. -/
inductive Severity where
  | error | warning | info
deriving DecidableEq, Repr

/-- One validation issue. -/
structure ValidationIssue where
  field : Str
  severity : Severity
  message : Str
deriving DecidableEq, Repr

/-- One validation result. -/
structure ValidationResult where
  school : School
  isValid : Bool
  issues : List ValidationIssue
  geocodingResult : Option GeocodingResult := none
deriving Repr

/-- The batch summary. -/
structure DataValidationSummary where
  totalSchools : Nat
  validSchools : Nat
  invalidSchools : Nat
  geocodingErrors : Nat
  validationResults : List ValidationResult
  issues : List ValidationIssue
deriving Repr

/-- The error issue of one missing required field. -/
def requiredFieldIssue (field : Str) : ValidationIssue :=
  { field := field, severity := Severity.error,
    message := "Required field \x27".data ++ field ++ "\x27 is missing or empty".data }

/-- validateRequiredFields (validator bundle lines 572 to 587).  Of the
seven listed fields only the three string-typed ones can be undefined,
null or empty in the embedded record; the four enumeration-typed fields
always hold a nonempty enum string. -/
def validateRequiredFields (s : School) : List ValidationIssue :=
  (if s.id = [] then [requiredFieldIssue "id".data] else []) ++
  (if s.name = [] then [requiredFieldIssue "name".data] else []) ++
  (if s.address = [] then [requiredFieldIssue "address".data] else [])

/-- Rendering of an integer by JavaScript template interpolation. -/
def intToStr (i : Int) : Str :=
  if i < 0 then '-' :: natToStr i.natAbs else natToStr i.natAbs

/-- Math.round of a rational: the floor of the value plus one half. -/
def jsRound (q : ℚ) : Int := Int.floor (q + 1/2)

/-- validateFieldFormats (validator bundle lines 589 to 674).  The color
membership check and the cost amount typeof check are identically true in
the embedding (the color field holds a palette member by construction and
every JsNum has number type), so neither can emit an issue.  URL
well-formedness is delegated to the host URL constructor, embedded as the
predicate urlValid. -/
def validateFieldFormats (urlValid : Str → Bool) (s : School) : List ValidationIssue :=
  (if trimStr s.id = [] then
    [{ field := "id".data, severity := Severity.error,
       message := "ID must be a non-empty string".data }] else []) ++
  (if s.name ≠ [] ∧ s.name.length < 3 then
    [{ field := "name".data, severity := Severity.error,
       message := "School name must be at least 3 characters long".data }] else []) ++
  (if s.address ≠ [] ∧ s.address.length < 10 then
    [{ field := "address".data, severity := Severity.warning,
       message := "Address seems too short, may cause geocoding issues".data }] else []) ++
  (if s.cost.currency ≠ "GBP".data ∧ s.cost.currency ≠ "USD".data ∧ s.cost.currency ≠ "EUR".data
   then
    [{ field := "cost".data, severity := Severity.warning,
       message := "Cost currency should be a valid currency code".data }] else []) ++
  (if s.cost.period ≠ "year".data ∧ s.cost.period ≠ "term".data then
    [{ field := "cost".data, severity := Severity.warning,
       message := "Cost period should be either \"year\" or \"term\"".data }] else []) ++
  (if s.competitiveness < 1 ∨ 5 < s.competitiveness then
    [{ field := "competitiveness".data, severity := Severity.error,
       message := "Competitiveness must be between 1 and 5".data }] else []) ++
  (match s.website with
   | some w =>
     if w ≠ [] ∧ !urlValid w then
       [{ field := "website".data, severity := Severity.warning,
          message := "Website URL appears to be invalid".data }]
     else []
   | none => [])

/-- validateCoordinates (validator bundle lines 676 to 724) for a geocoder
embedded as a function from addresses to results or structured errors:
valid coordinates succeed silently; otherwise a missing address is an
immediate error, a resolved address appends an info issue (or a warning
when a truthy confidence is below one half) and returns the result, and a
failed resolution appends an error issue carrying the structured message. -/
def validateCoordinates (geo : Str → Except GeocodingError GeocodingResult) (s : School) :
    List ValidationIssue × Option GeocodingResult :=
  let tryGeocode : List ValidationIssue × Option GeocodingResult :=
    if s.address = [] then
      ([{ field := "coordinates".data, severity := Severity.error,
          message := "Invalid coordinates and no address provided for geocoding".data }], none)
    else
      match geo s.address with
      | Except.ok gr =>
        let lowConf : Bool :=
          match gr.confidence with
          | some conf => conf ≠ 0 && conf < 1/2
          | none => false
        if lowConf then
          ([{ field := "coordinates".data, severity := Severity.warning,
              message := "Geocoding confidence is low (".data
                ++ intToStr (jsRound ((gr.confidence.getD 0) * 100)) ++ "%) for address: ".data
                ++ s.address }], some gr)
        else
          ([{ field := "coordinates".data, severity := Severity.info,
              message := "Coordinates geocoded successfully for address: ".data ++ s.address }],
           some gr)
      | Except.error e =>
        ([{ field := "coordinates".data, severity := Severity.error,
            message := "Geocoding failed: ".data ++ e.message }], none)
  match s.coordinates with
  | some c => if isValidCoordinates c then ([], none) else tryGeocode
  | none => tryGeocode

/-- validateSchool (validator bundle lines 473 to 501): collect the three
issue groups in order, overwrite the coordinates with the geocoded ones
exactly when a geocoding result exists and the original coordinates are
absent or out of range, and derive validity from the absence of
error-severity issues. -/
def validateSchool (geo : Str → Except GeocodingError GeocodingResult)
    (urlValid : Str → Bool) (s : School) : ValidationResult :=
  let issues1 := validateRequiredFields s
  let issues2 := validateFieldFormats urlValid s
  let coordsOut := validateCoordinates geo s
  let s2 :=
    match coordsOut.2 with
    | some gr =>
      match s.coordinates with
      | none => { s with coordinates := some gr.coordinates }
      | some c =>
        if !isValidCoordinates c then { s with coordinates := some gr.coordinates } else s
    | none => s
  let issues := issues1 ++ issues2 ++ coordsOut.1
  { school := s2,
    isValid := (issues.filter (fun i => i.severity = Severity.error)).length = 0,
    issues := issues, geocodingResult := coordsOut.2 }

/-- The batch slicing of validateSchoolData: successive slices of ten
records, in order. -/
def chunked (l : List School) : List (List School) :=
  if _hne : l = [] then [] else l.take 10 :: chunked (l.drop 10)
termination_by l.length
decreasing_by
  simp only [List.length_drop]
  have hl : 0 < l.length := List.length_pos.mpr _hne
  omega

/-- Does one validation result count as a geocoding error in the summary
(validator bundle lines 524 to 526). -/
def countsAsGeoError (r : ValidationResult) : Bool :=
  r.issues.any (fun i => i.field = "coordinates".data && containsSub "geocoding".data i.message)

/-- validateSchoolData (validator bundle lines 506 to 547): validate every
record in chunks of ten (the chunking and the inter-chunk pause do not
change the sequence of results), then aggregate the summary; the invalid
count is the total minus the valid count. -/
def validateSchoolData (geo : Str → Except GeocodingError GeocodingResult)
    (urlValid : Str → Bool) (schools : List School) : DataValidationSummary :=
  let validationResults :=
    ((chunked schools).map (fun b => b.map (validateSchool geo urlValid))).flatten
  let allIssues := (validationResults.map ValidationResult.issues).flatten
  let geocodingErrors := validationResults.countP (fun r => countsAsGeoError r)
  let validSchools := (validationResults.filter (fun r => r.isValid)).length
  { totalSchools := schools.length, validSchools := validSchools,
    invalidSchools := schools.length - validSchools, geocodingErrors := geocodingErrors,
    validationResults := validationResults, issues := allIssues }

/-! ## Theorems -/

/-- C9: the cost parser maps the text Free (voluntary contributions
expected) to a free cost of amount zero, and the text with a pound sign,
25,000 and the VAT marker to a fee-based cost of amount 25000 with the
thousands separator stripped and includesVAT set. -/
theorem C9_parseCost_examples :
    (parseCost "Free (voluntary contributions expected)".data).isFree = true ∧
    (parseCost "Free (voluntary contributions expected)".data).amount = JsNum.num 0 ∧
    (parseCost "£25,000 (inc. VAT)".data).isFree = false ∧
    (parseCost "£25,000 (inc. VAT)".data).amount = JsNum.num 25000 ∧
    (parseCost "£25,000 (inc. VAT)".data).includesVAT = some true := by
  refine ⟨by decide, by decide, by decide, by decide, by decide⟩

/-- A document whose single record block carries no School Type property
line, while being complete enough to survive the flush predicate. -/
def noSchoolTypeDoc : Str :=
  ("## LONDON SCHOOLS\n### BARNET\n**1. Test School**\n- **Address:** 1 High Road, Barnet EN5 4DQ").data

/-- C10: school-type text containing none of the five known substrings is
classified as Grammar by the fallback branch, and a record whose School
Type property line is entirely absent keeps the Grammar default of the
accumulator initializer; the sample document demonstrably contains no
School Type property line. -/
theorem C10_schoolType_default :
    (∀ v : Str,
      containsSub "Grammar".data v = false →
      containsSub "Private".data v = false →
      containsSub "State Primary (Faith)".data v = false →
      containsSub "State Primary".data v = false →
      containsSub "Comprehensive".data v = false →
      parseSchoolType v = SchoolType.GRAMMAR) ∧
    (parseSchoolData noSchoolTypeDoc).schools.map School.schoolType = [SchoolType.GRAMMAR] ∧
    (splitOnNl noSchoolTypeDoc).all
      (fun l => (propMatch (trimStr l)).elim true (fun kv => kv.1 ≠ "School Type".data)) = true := by
  refine ⟨?_, by decide, by decide⟩
  intro v h1 h2 h3 h4 h5
  simp [parseSchoolType, h1, h2, h3, h4, h5]

/-- Witness for C10: the fallback fires on the concrete value Academy. -/
theorem C10_witness :
    containsSub "Grammar".data "Academy".data = false ∧
    parseSchoolType "Academy".data = SchoolType.GRAMMAR :=
  ⟨by decide,
   C10_schoolType_default.1 "Academy".data (by decide) (by decide) (by decide) (by decide) (by decide)⟩

/-- The school-amenity bonus of the confidence score. -/
def schoolAmenityBonus (r : Candidate) : ℚ :=
  if r.cls = "amenity".data ∧ r.typ = "school".data then 3/10 else 0

/-- The importance contribution of the confidence score, guarded by
JavaScript truthiness. -/
def importanceBonus (r : Candidate) : ℚ :=
  match r.importance with
  | some imp => if imp ≠ 0 then imp * (1/5) else 0
  | none => 0

/-- The address-specificity tier bonus of the confidence score: the two
sequential additions of the source, whose conditions are mutually
exclusive. -/
def addressTierBonus (r : Candidate) : ℚ :=
  (if r.addresstype = "amenity".data then 1/5 else 0) +
  (if r.addresstype = "house".data then 1/10 else 0)

/-- The confidence formula exactly as the specification words it: the
additive total clamped to the unit interval on both sides. -/
def specClampedConfidence (r : Candidate) : ℚ :=
  max 0 (min 1 (1/2 + schoolAmenityBonus r + importanceBonus r + addressTierBonus r))

/-- A provider candidate carrying a negative importance score. -/
def negImportanceCandidate : Candidate :=
  { lat := [], lon := [], display_name := [], cls := "x".data, typ := "x".data,
    importance := some (-3), addresstype := "x".data }

/-- Counterexample to C1 as stated: on a candidate of importance minus
three the code returns minus one tenth, while the total clamped to the
unit interval would be zero, so the computed confidence is not the clamped
total. -/
theorem C1_counterexample :
    calculateConfidence negImportanceCandidate = -(1/10) ∧
    specClampedConfidence negImportanceCandidate = 0 ∧
    calculateConfidence negImportanceCandidate ≠ specClampedConfidence negImportanceCandidate := by
  have h1 : calculateConfidence negImportanceCandidate = -(1/10) := by
    unfold calculateConfidence negImportanceCandidate
    simp +decide
    norm_num
  have h2 : specClampedConfidence negImportanceCandidate = 0 := by
    unfold specClampedConfidence schoolAmenityBonus importanceBonus addressTierBonus
      negImportanceCandidate
    simp +decide
    norm_num
  refine ⟨h1, h2, by rw [h1, h2]; norm_num⟩

/-- C1 amended: the confidence equals the additive total of the base, the
school-amenity bonus, the truthiness-guarded importance contribution and
the address-specificity tier, capped above at one but not clamped below
zero; the tier bonus lies between zero and three tenths with the amenity
tier above the house tier; and whenever the importance is absent or
nonnegative the cap coincides with the two-sided clamp of the original
claim. -/
theorem C1_confidence_amended :
    ∀ r : Candidate,
      calculateConfidence r
          = min 1 (1/2 + schoolAmenityBonus r + importanceBonus r + addressTierBonus r) ∧
      0 ≤ addressTierBonus r ∧ addressTierBonus r ≤ 3/10 ∧
      ((∀ imp : ℚ, r.importance = some imp → 0 ≤ imp) →
        calculateConfidence r = specClampedConfidence r) := by
  intro r
  have htier : 0 ≤ addressTierBonus r ∧ addressTierBonus r ≤ 3/10 := by
    unfold addressTierBonus
    constructor <;> split_ifs <;> norm_num
  have heq : calculateConfidence r
      = min 1 (1/2 + schoolAmenityBonus r + importanceBonus r + addressTierBonus r) := by
    unfold calculateConfidence schoolAmenityBonus importanceBonus addressTierBonus
    rcases hi : r.importance with _ | imp <;>
      simp only [hi] <;> split_ifs <;> rw [min_comm] <;> congr 1 <;> ring
  refine ⟨heq, htier.1, htier.2, ?_⟩
  intro himp
  have hbonus : 0 ≤ schoolAmenityBonus r := by
    unfold schoolAmenityBonus; split_ifs <;> norm_num
  have himpb : 0 ≤ importanceBonus r := by
    unfold importanceBonus
    rcases hi : r.importance with _ | imp
    · dsimp only
      exact le_refl 0
    · have h0 := himp imp hi
      dsimp only
      split_ifs <;> positivity
  have hsum : (0 : ℚ) ≤ 1/2 + schoolAmenityBonus r + importanceBonus r + addressTierBonus r := by
    have := htier.1
    linarith
  have hmin : (0 : ℚ)
      ≤ min 1 (1/2 + schoolAmenityBonus r + importanceBonus r + addressTierBonus r) :=
    le_min (by norm_num) hsum
  rw [heq, specClampedConfidence, max_eq_right hmin]

/-- Witness for C1: the amended equality evaluated on a school-amenity
candidate of importance seven tenths, whose importance is nonnegative. -/
theorem C1_witness :
    calculateConfidence
        { lat := [], lon := [], display_name := [], cls := "amenity".data, typ := "school".data,
          importance := some (7/10), addresstype := "amenity".data }
      = specClampedConfidence
        { lat := [], lon := [], display_name := [], cls := "amenity".data, typ := "school".data,
          importance := some (7/10), addresstype := "amenity".data } :=
  (C1_confidence_amended
    { lat := [], lon := [], display_name := [], cls := "amenity".data, typ := "school".data,
      importance := some (7/10), addresstype := "amenity".data }).2.2.2
    (by intro imp h; cases h; norm_num)

/-- A free cost record used by the concrete example schools. -/
def plainCost : Cost :=
  { amount := JsNum.num 0, currency := "GBP".data, period := "year".data, isFree := true }

/-- A concrete school without a ranking. -/
def alphaSchool : School :=
  { id := "1".data, name := "Alpha School".data, schoolType := SchoolType.GRAMMAR,
    gender := Gender.COED, level := Level.SECONDARY,
    address := "1 High Road, Barnet EN5 4DQ".data, postcode := "EN5 4DQ".data,
    cost := plainCost, competitiveness := 3, notes := [], borough := "BARNET".data,
    county := County.LONDON, color := SchoolColor.OTHER }

/-- A concrete school ranked at position five. -/
def betaSchool : School :=
  { id := "2".data, name := "Beta School".data, schoolType := SchoolType.GRAMMAR,
    gender := Gender.COED, level := Level.SECONDARY,
    address := "1 High Road, Barnet EN5 4DQ".data, postcode := "EN5 4DQ".data,
    cost := plainCost, competitiveness := 3, notes := [], borough := "BARNET".data,
    county := County.LONDON, color := SchoolColor.OTHER,
    ranking := some { position := 5, source := [] } }

/-- Counterexample to C2 as stated: with the ranking-range predicate
supplied at bounds one and one thousand, the optimized filter returns the
unranked school as a wildcard match instead of excluding it. -/
theorem C2_counterexample :
    optimizedSchoolFilter [alphaSchool] { ranking := some (1, 1000) } = [alphaSchool] ∧
    alphaSchool.ranking = none := by
  exact ⟨rfl, rfl⟩

/-- C2 amended: filterSchools excludes every unranked record whenever a
ranking range is supplied, regardless of its bounds; optimizedSchoolFilter
consults the ranking range only when the supplied bounds satisfy min above
one or max below one thousand, and under that guard likewise excludes
every unranked record. -/
theorem C2_ranking_filter_amended :
    (∀ (schools : List School) (f : SchoolFilters) (s : School),
      f.rankingRange.isSome = true → s ∈ filterSchools schools f → s.ranking.isSome = true) ∧
    (∀ (schools : List School) (f : OptFilters) (s : School) (mn mx : Int),
      f.ranking = some (mn, mx) → (1 < mn ∨ mx < 1000) →
      s ∈ optimizedSchoolFilter schools f → s.ranking.isSome = true) := by
  constructor
  · intro schools f s hsome hmem
    rcases hr : f.rankingRange with _ | r
    · rw [hr] at hsome; simp at hsome
    · rcases hsr : s.ranking with _ | rk
      · exfalso
        have hnf : noFilterKeys f = false := by
          rw [noFilterKeys, hr]; simp
        rw [filterSchools, if_neg (by simp [hnf])] at hmem
        have hp := (List.mem_filter.mp hmem).2
        rw [schoolPassesFilters, hr, hsr] at hp
        simp at hp
      · simp [hsr]
  · intro schools f s mn mx hrk hguard hmem
    rcases hsr : s.ranking with _ | rk
    · exfalso
      simp only [optimizedSchoolFilter] at hmem
      rw [hrk] at hmem
      have hcond : (decide (1 < mn) || decide (mx < 1000)) = true := by
        rcases hguard with h2 | h2 <;> simp [h2]
      dsimp only at hmem
      rw [if_pos hcond] at hmem
      have hp := (List.mem_filter.mp hmem).2
      rw [hsr] at hp
      simp at hp
    · simp [hsr]

/-- Witness for C2: both amended exclusion statements applied to the
concrete two-school list; the ranked school survives and indeed carries a
ranking. -/
theorem C2_witness :
    betaSchool.ranking.isSome = true ∧ betaSchool.ranking.isSome = true :=
  ⟨C2_ranking_filter_amended.1 [alphaSchool, betaSchool]
      { rankingRange := some { min := some 1, max := some 1000 } } betaSchool
      (by decide) (by decide),
   C2_ranking_filter_amended.2 [alphaSchool, betaSchool] { ranking := some (2, 1000) }
      betaSchool 2 1000 rfl (Or.inl (by norm_num)) (by decide)⟩

/-- C3: search returns hits sorted by descending relevance, truncated to at
most fifty, every returned hit has a positive score equal to the relevance
of its school for the normalized query and its school comes from the input
list, and an empty or whitespace-only query returns the empty list. -/
theorem C3_search_contract :
    ∀ (schools : List School) (query : Str),
      (optimizedSchoolSearch schools query).Pairwise hitGE ∧
      (optimizedSchoolSearch schools query).length ≤ 50 ∧
      (∀ h2 ∈ optimizedSchoolSearch schools query,
        0 < h2.relevance ∧ h2.school ∈ schools ∧
        h2.relevance = relevanceOf (trimStr (lowerStr query)) h2.school) ∧
      (trimStr query = [] → optimizedSchoolSearch schools query = []) := by
  intro schools query
  by_cases hq : trimStr query = []
  · refine ⟨?_, ?_, ?_, ?_⟩ <;> simp [optimizedSchoolSearch, hq]
  · have hunf : optimizedSchoolSearch schools query
        = (((schools.map (fun s => SearchHit.mk s (relevanceOf (trimStr (lowerStr query)) s))).filter
            (fun h2 => 0 < h2.relevance)).insertionSort hitGE).take 50 := by
      rw [optimizedSchoolSearch, if_neg hq]
    refine ⟨?_, ?_, ?_, fun h2 => absurd h2 hq⟩
    · rw [hunf]
      exact List.Pairwise.sublist (List.take_sublist _ _) (List.sorted_insertionSort hitGE _)
    · rw [hunf, List.length_take]
      exact min_le_left _ _
    · intro h2 hmem
      rw [hunf] at hmem
      have hmem2 := (List.take_sublist _ _).subset hmem
      rw [List.mem_insertionSort] at hmem2
      have hsplit := List.mem_filter.mp hmem2
      obtain ⟨s, hs, rfl⟩ := List.mem_map.mp hsplit.1
      exact ⟨of_decide_eq_true hsplit.2, hs, rfl⟩

/-- Witness for C3: the contract applied to a concrete search; the returned
hit for the name Alpha School scores 100, and a whitespace query returns
the empty list. -/
theorem C3_witness :
    (0 < (SearchHit.mk alphaSchool 100).relevance ∧
      (SearchHit.mk alphaSchool 100).school ∈ [alphaSchool, betaSchool] ∧
      (SearchHit.mk alphaSchool 100).relevance
        = relevanceOf (trimStr (lowerStr "alpha".data)) (SearchHit.mk alphaSchool 100).school) ∧
    optimizedSchoolSearch [alphaSchool, betaSchool] "  ".data = [] :=
  ⟨(C3_search_contract [alphaSchool, betaSchool] "alpha".data).2.2.1
      (SearchHit.mk alphaSchool 100) (by decide),
   (C3_search_contract [alphaSchool, betaSchool] "  ".data).2.2.2 (by decide)⟩

/-- Writing a fresh key into a JavaScript Map appends the entry. -/
theorem jsMapSet_fresh {α : Type} (m : List (Str × α)) (k : Str) (v : α)
    (hk : k ∉ m.map Prod.fst) : jsMapSet m k v = m ++ [(k, v)] := by
  induction m with
  | nil => rfl
  | cons p rest ih =>
    obtain ⟨k2, v2⟩ := p
    simp only [List.map_cons, List.mem_cons, not_or] at hk
    rw [jsMapSet, if_neg (fun h2 => hk.1 h2.symm), ih hk.2]
    simp

/-- Filling a cache that has room with entries whose normalized keys are
fresh and pairwise distinct appends them all in insertion order. -/
theorem cacheFill :
    ∀ (entries : List (Str × GeocodingResult)) (m : CacheState) (cap : Nat),
      m.length + entries.length ≤ cap →
      (entries.map (fun e => normalizeAddress e.1)).Nodup →
      (∀ e ∈ entries, normalizeAddress e.1 ∉ m.map Prod.fst) →
      entries.foldl (fun acc e => cacheSet cap acc e.1 e.2) m
        = m ++ entries.map (fun e => (normalizeAddress e.1, e.2)) := by
  intro entries
  induction entries with
  | nil => intro m cap _ _ _; simp
  | cons e rest ih =>
    intro m cap hlen hnodup hfresh
    rw [List.foldl_cons]
    have hm : m.length < cap := by
      simp only [List.length_cons] at hlen; omega
    have hset : cacheSet cap m e.1 e.2 = m ++ [(normalizeAddress e.1, e.2)] := by
      rw [cacheSet, if_neg (by omega)]
      exact jsMapSet_fresh _ _ _ (hfresh e (List.mem_cons_self e rest))
    have hnodup2 : (rest.map (fun e2 => normalizeAddress e2.1)).Nodup := by
      rw [List.map_cons, List.nodup_cons] at hnodup
      exact hnodup.2
    have hhead : normalizeAddress e.1 ∉ rest.map (fun e2 => normalizeAddress e2.1) := by
      rw [List.map_cons, List.nodup_cons] at hnodup
      exact hnodup.1
    have hfresh2 : ∀ e2 ∈ rest,
        normalizeAddress e2.1 ∉ (m ++ [(normalizeAddress e.1, e.2)]).map Prod.fst := by
      intro e2 he2
      rw [List.map_append]
      simp only [List.mem_append, List.map_cons, List.map_nil, List.mem_singleton, not_or]
      refine ⟨hfresh e2 (List.mem_cons_of_mem e he2), ?_⟩
      intro hcontra
      exact hhead (hcontra ▸ List.mem_map_of_mem (fun x => normalizeAddress x.1) he2)
    have hlen2 : (m ++ [(normalizeAddress e.1, e.2)]).length + rest.length ≤ cap := by
      rw [List.length_append]
      simp only [List.length_cons] at hlen
      simp only [List.length_cons, List.length_nil]
      omega
    rw [hset, ih _ cap hlen2 hnodup2 hfresh2]
    simp

/-- C5: the two example addresses normalize to the same key, a value
stored under one is retrieved under the other, and inserting capacity plus
one entries with pairwise distinct normalized keys into an empty cache of
any positive capacity leaves exactly the last capacity keys in insertion
order: exactly the first-inserted key is evicted. -/
theorem C5_cache_normalization_fifo :
    normalizeAddress "  Test   Address  ".data = normalizeAddress "TEST ADDRESS".data ∧
    (∀ v : GeocodingResult,
      cacheGet (cacheSet cacheMaxSize [] "  Test   Address  ".data v) "TEST ADDRESS".data
        = some v) ∧
    (∀ (cap : Nat) (entries : List (Str × GeocodingResult)),
      1 ≤ cap → entries.length = cap + 1 →
      (entries.map (fun e => normalizeAddress e.1)).Nodup →
      (entries.foldl (fun m e => cacheSet cap m e.1 e.2) []).map Prod.fst
        = (entries.map (fun e => normalizeAddress e.1)).drop 1) := by
  refine ⟨by decide, fun v => rfl, ?_⟩
  intro cap entries hcap hlen hnodup
  obtain (hnil | ⟨E, e, hE⟩) := entries.eq_nil_or_concat
  · rw [hnil] at hlen; simp at hlen
  · subst hE
    simp only [List.concat_eq_append] at hlen hnodup ⊢
    have hElen : E.length = cap := by
      simp only [List.length_append, List.length_cons, List.length_nil] at hlen; omega
    rw [List.foldl_append, List.foldl_cons, List.foldl_nil]
    have hEnodup : (E.map (fun e => normalizeAddress e.1)).Nodup :=
      List.Nodup.of_append_left (by simpa using hnodup)
    have hfill : E.foldl (fun m e2 => cacheSet cap m e2.1 e2.2) []
        = E.map (fun e2 => (normalizeAddress e2.1, e2.2)) := by
      have := cacheFill E [] cap (by simp [hElen]) hEnodup (by simp)
      simpa using this
    rw [hfill]
    have hlenE : (E.map (fun e2 => (normalizeAddress e2.1, e2.2))).length = cap := by
      simp [hElen]
    have hdisj : normalizeAddress e.1 ∉ E.map (fun e2 => normalizeAddress e2.1) := by
      rw [List.map_append] at hnodup
      have := List.disjoint_of_nodup_append hnodup
      intro hmem
      exact this hmem (by simp)
    rw [cacheSet, if_pos (by omega)]
    have hfresh2 : normalizeAddress e.1
        ∉ ((E.map (fun e2 => (normalizeAddress e2.1, e2.2))).drop 1).map Prod.fst := by
      intro hmem
      apply hdisj
      have hsub : ((E.map (fun e2 => (normalizeAddress e2.1, e2.2))).drop 1).map Prod.fst
          ⊆ (E.map (fun e2 => (normalizeAddress e2.1, e2.2))).map Prod.fst :=
        List.map_subset _ (List.drop_subset _ _)
      have hmem2 := hsub hmem
      rw [List.map_map] at hmem2
      exact hmem2
    rw [jsMapSet_fresh _ _ _ hfresh2]
    have hEpos : 1 ≤ (E.map (fun e2 => normalizeAddress e2.1)).length := by
      simp only [List.length_map, hElen]; omega
    rw [List.map_append, List.map_append, List.drop_append_of_le_length hEpos,
      List.map_drop, List.map_map]
    rfl

/-- A concrete geocoding result for cache examples. -/
def gr1 : GeocodingResult := { coordinates := { lat := 1, lng := 2 } }

/-- Witness for C5: inserting three distinct keys into an empty cache of
capacity two leaves exactly the last two keys. -/
theorem C5_witness :
    ([("a".data, gr1), ("b".data, gr1), ("c".data, gr1)].foldl
        (fun m e => cacheSet 2 m e.1 e.2) []).map Prod.fst
      = ([("a".data, gr1), ("b".data, gr1), ("c".data, gr1)].map
          (fun e => normalizeAddress e.1)).drop 1 :=
  C5_cache_normalization_fifo.2.2 2 [("a".data, gr1), ("b".data, gr1), ("c".data, gr1)]
    (by decide) (by decide) (by decide)

/-- Writing one key grows a JavaScript Map by at most one entry. -/
theorem jsMapSet_length_le {α : Type} (m : List (Str × α)) (k : Str) (v : α) :
    (jsMapSet m k v).length ≤ m.length + 1 := by
  induction m with
  | nil => simp [jsMapSet]
  | cons p rest ih =>
    obtain ⟨k2, v2⟩ := p
    rw [jsMapSet]
    by_cases hk : k2 = k
    · rw [if_pos hk]; simp
    · rw [if_neg hk]
      simp only [List.length_cons]
      omega

/-- Every cache operation preserves the capacity bound, for any positive
capacity. -/
theorem cacheFold_length_le (cap : Nat) (hcap : 1 ≤ cap) :
    ∀ (ops : List CacheOp) (m : CacheState),
      m.length ≤ cap → (ops.foldl (cacheStep cap) m).length ≤ cap := by
  intro ops
  induction ops with
  | nil => intro m hm; simpa using hm
  | cons op rest ih =>
    intro m hm
    rw [List.foldl_cons]
    apply ih
    cases op with
    | get a => simpa using hm
    | has a => simpa using hm
    | clear => simp [cacheStep]
    | set a v =>
      show (cacheSet cap m a v).length ≤ cap
      rw [cacheSet]
      by_cases hfull : cap ≤ m.length
      · rw [if_pos hfull]
        have h1 := jsMapSet_length_le (m.drop 1) (normalizeAddress a) v
        rw [List.length_drop] at h1
        omega
      · rw [if_neg hfull]
        have h1 := jsMapSet_length_le m (normalizeAddress a) v
        omega

/-- C6: after any sequence of get, set, has and clear operations starting
from the empty cache, the cache holds at most its fixed capacity of one
thousand entries. -/
theorem C6_cache_capacity_invariant :
    ∀ ops : List CacheOp, (cacheRun cacheMaxSize ops).length ≤ cacheMaxSize := by
  intro ops
  exact cacheFold_length_le cacheMaxSize (by norm_num [cacheMaxSize]) ops [] (by simp)

/-- The chunked traversal of the validator visits every record once, in
order. -/
theorem chunked_flatten_map (f : School → ValidationResult) :
    ∀ (n : Nat) (l : List School), l.length ≤ n →
      ((chunked l).map (fun b => b.map f)).flatten = l.map f := by
  intro n
  induction n with
  | zero =>
    intro l hl
    have hnil : l = [] := List.length_eq_zero.mp (Nat.le_zero.mp hl)
    subst hnil
    rw [chunked]
    simp
  | succ n ih =>
    intro l hl
    by_cases hnil : l = []
    · subst hnil
      rw [chunked]
      simp
    · rw [chunked, dif_neg hnil]
      simp only [List.map_cons, List.flatten_cons]
      rw [ih (l.drop 10) (by rw [List.length_drop]; omega)]
      rw [← List.map_append, List.take_append_drop]

/-- C7: for every record list the batch summary satisfies valid count plus
invalid count equals the total, the total is the input length, and every
record contributes exactly one per-record result; a geocoder that fails on
every address is as acceptable as one that succeeds, so per-record
failures never abort the batch. -/
theorem C7_batch_summary :
    ∀ (geo : Str → Except GeocodingError GeocodingResult) (urlValid : Str → Bool)
      (schools : List School),
      (validateSchoolData geo urlValid schools).validSchools
          + (validateSchoolData geo urlValid schools).invalidSchools
        = (validateSchoolData geo urlValid schools).totalSchools ∧
      (validateSchoolData geo urlValid schools).totalSchools = schools.length ∧
      (validateSchoolData geo urlValid schools).validationResults.length = schools.length := by
  intro geo urlValid schools
  have hres : ((chunked schools).map (fun b => b.map (validateSchool geo urlValid))).flatten
      = schools.map (validateSchool geo urlValid) :=
    chunked_flatten_map _ schools.length schools (le_refl _)
  simp only [validateSchoolData, hres]
  have hv : ((schools.map (validateSchool geo urlValid)).filter (fun r => r.isValid)).length
      ≤ schools.length :=
    le_trans (List.length_filter_le _ _) (by simp)
  refine ⟨?_, by trivial, by simp⟩
  dsimp only
  omega

/-- The empty needle is contained in every string. -/
theorem containsSub_nil_left : ∀ s : Str, containsSub [] s = true := by
  intro s
  cases s <;> simp [containsSub, List.isPrefixOf]

/-- Containment in a string survives appending more text on the right. -/
theorem containsSub_append_left (n a b : Str) (h : containsSub n a = true) :
    containsSub n (a ++ b) = true := by
  induction a with
  | nil =>
    rw [containsSub] at h
    have hn : n = [] := by
      rw [List.isPrefixOf_iff_prefix] at h
      simpa using h
    subst hn
    exact containsSub_nil_left b
  | cons c rest ih =>
    rw [containsSub, Bool.or_eq_true] at h
    rw [List.cons_append, containsSub, Bool.or_eq_true]
    rcases h with h | h
    · left
      rw [List.isPrefixOf_iff_prefix] at h ⊢
      exact h.trans (List.prefix_append _ _)
    · right
      exact ih h

/-- C8: an empty or null candidate list resolves to a structured error of
code NO_RESULTS for every address; a transport-level TypeError whose
message carries none of the provider token substrings resolves to
NETWORK_ERROR; a 429 response resolves to RATE_LIMIT whatever its status
text; and any other non-ok response whose composed message carries none of
the recognized substrings resolves to INVALID_ADDRESS.  Every error path
returns a structured GeocodingError value, never an unstructured
exception. -/
theorem C8_error_classification :
    (∀ (pf : Str → ℚ) (address : Str) (status : Nat) (statusText : Str)
        (data : Option (List Candidate)), (data = none ∨ data = some []) →
      geocodeAddress pf (FetchOutcome.response true status statusText data) address
        = Except.error
            { message := "No geocoding results found for address: ".data ++ address,
              code := GeoCode.NO_RESULTS }) ∧
    (∀ (pf : Str → ℚ) (address msg : Str),
      containsSub "rate limit".data msg = false → containsSub "429".data msg = false →
      containsSub "No results".data msg = false →
      ∃ e, geocodeAddress pf (FetchOutcome.throws "TypeError".data msg) address
          = Except.error e ∧ e.code = GeoCode.NETWORK_ERROR) ∧
    (∀ (pf : Str → ℚ) (address statusText : Str) (data : Option (List Candidate)),
      ∃ e, geocodeAddress pf (FetchOutcome.response false 429 statusText data) address
          = Except.error e ∧ e.code = GeoCode.RATE_LIMIT) ∧
    (∀ (pf : Str → ℚ) (address statusText : Str) (status : Nat)
        (data : Option (List Candidate)),
      containsSub "rate limit".data ("HTTP ".data ++ natToStr status ++ ": ".data ++ statusText)
          = false →
      containsSub "429".data ("HTTP ".data ++ natToStr status ++ ": ".data ++ statusText)
          = false →
      containsSub "No results".data ("HTTP ".data ++ natToStr status ++ ": ".data ++ statusText)
          = false →
      containsSub "Network error".data ("HTTP ".data ++ natToStr status ++ ": ".data ++ statusText)
          = false →
      containsSub "fetch".data ("HTTP ".data ++ natToStr status ++ ": ".data ++ statusText)
          = false →
      ∃ e, geocodeAddress pf (FetchOutcome.response false status statusText data) address
          = Except.error e ∧ e.code = GeoCode.INVALID_ADDRESS) := by
  refine ⟨?_, ?_, ?_, ?_⟩
  · intro pf address status statusText data hdata
    have c1 : (containsSub "rate limit".data "No results found for address".data
        || containsSub "429".data "No results found for address".data) = false := by decide
    have c2 : containsSub "No results".data "No results found for address".data = true := by
      decide
    rcases hdata with h | h <;> subst h <;>
      · show Except.error
            (handleError "Error".data "No results found for address".data address) = _
        rw [handleError, if_neg (by simp [c1]), if_pos c2]
  · intro pf address msg h1 h2 h3
    refine ⟨_, rfl, ?_⟩
    rw [handleError, if_neg (by simp [h1, h2]), if_neg (by simp [h3]),
      if_pos (by simp)]
  · intro pf address statusText data
    have h429 : containsSub "429".data
        (("HTTP ".data ++ natToStr 429 ++ ": ".data) ++ statusText) = true :=
      containsSub_append_left _ _ _ (by decide)
    refine ⟨_, rfl, ?_⟩
    rw [handleError, if_pos (by rw [h429]; simp)]
  · intro pf address statusText status data h1 h2 h3 h4 h5
    refine ⟨_, rfl, ?_⟩
    rw [handleError, if_neg (by rw [h1, h2]; simp), if_neg (by rw [h3]; simp),
      if_neg (by rw [h4, h5]; decide)]

/-- Witness for C8: the four classifications evaluated on concrete
outcomes: an empty candidate array, a fetch TypeError, a 429 response and
a 500 response. -/
theorem C8_witness :
    (geocodeAddress (fun _ => 0) (FetchOutcome.response true 200 [] (some [])) "addr".data
      = Except.error
          { message := "No geocoding results found for address: ".data ++ "addr".data,
            code := GeoCode.NO_RESULTS }) ∧
    (∃ e, geocodeAddress (fun _ => 0)
          (FetchOutcome.throws "TypeError".data "Failed to fetch".data) "a".data
        = Except.error e ∧ e.code = GeoCode.NETWORK_ERROR) ∧
    (∃ e, geocodeAddress (fun _ => 0)
          (FetchOutcome.response false 429 "Too Many Requests".data none) "a".data
        = Except.error e ∧ e.code = GeoCode.RATE_LIMIT) ∧
    (∃ e, geocodeAddress (fun _ => 0)
          (FetchOutcome.response false 500 "Server Error".data none) "a".data
        = Except.error e ∧ e.code = GeoCode.INVALID_ADDRESS) :=
  ⟨C8_error_classification.1 (fun _ => 0) "addr".data 200 [] (some []) (Or.inr rfl),
   C8_error_classification.2.1 (fun _ => 0) "a".data "Failed to fetch".data
     (by decide) (by decide) (by decide),
   C8_error_classification.2.2.1 (fun _ => 0) "a".data "Too Many Requests".data none,
   C8_error_classification.2.2.2 (fun _ => 0) "a".data "Server Error".data 500 none
     (by decide) (by decide) (by decide) (by decide) (by decide)⟩

/-- The error issue the validator appends when geocoding fails. -/
def geoFailIssue (e : GeocodingError) : ValidationIssue :=
  { field := "coordinates".data, severity := Severity.error,
    message := "Geocoding failed: ".data ++ e.message }

/-- C4: validateSchool leaves a record with valid original coordinates
entirely unchanged, so coordinates are mutated only when the original
coordinates are absent or out of range; and for every record whose
coordinates are absent or invalid and whose address the geocoder fails to
resolve, the validator appends an error-severity issue on the coordinates
field carrying the structured geocoding-failure message and leaves the
coordinates unchanged. -/
theorem C4_coordinate_repair_frame :
    (∀ (geo : Str → Except GeocodingError GeocodingResult) (urlValid : Str → Bool)
        (s : School) (c : Coordinates),
      s.coordinates = some c → isValidCoordinates c = true →
      (validateSchool geo urlValid s).school = s) ∧
    (∀ (geo : Str → Except GeocodingError GeocodingResult) (urlValid : Str → Bool)
        (s : School) (e : GeocodingError),
      (∀ c, s.coordinates = some c → isValidCoordinates c = false) →
      s.address ≠ [] → geo s.address = Except.error e →
      (validateSchool geo urlValid s).school.coordinates = s.coordinates ∧
      ∃ iss ∈ (validateSchool geo urlValid s).issues,
        iss.severity = Severity.error ∧ iss.field = "coordinates".data ∧
        iss.message = "Geocoding failed: ".data ++ e.message) := by
  constructor
  · intro geo urlValid s c hc hvalid
    have hco : validateCoordinates geo s = ([], none) := by
      rw [validateCoordinates, hc]
      dsimp only
      rw [if_pos hvalid]
    simp only [validateSchool, hco]
  · intro geo urlValid s e hinv haddr hge
    have hco : validateCoordinates geo s = ([geoFailIssue e], none) := by
      rw [geoFailIssue]
      rw [validateCoordinates]
      cases hc : s.coordinates with
      | none =>
        dsimp only
        rw [if_neg haddr, hge]
      | some c =>
        dsimp only
        rw [if_neg (by simp [hinv c hc]), if_neg haddr, hge]
    constructor
    · simp only [validateSchool, hco]
    · refine ⟨geoFailIssue e, ?_, rfl, rfl, rfl⟩
      simp only [validateSchool, hco]
      simp

/-- A concrete school whose coordinates are out of range. -/
def badCoordSchool : School :=
  { id := "3".data, name := "Gamma School".data, schoolType := SchoolType.GRAMMAR,
    gender := Gender.COED, level := Level.SECONDARY,
    address := "1 High Road, Barnet EN5 4DQ".data, postcode := "EN5 4DQ".data,
    cost := plainCost, competitiveness := 3, notes := [], borough := "BARNET".data,
    county := County.LONDON, color := SchoolColor.OTHER,
    coordinates := some { lat := 200, lng := 0 } }

/-- A concrete school whose coordinates are in range. -/
def goodCoordSchool : School :=
  { id := "4".data, name := "Delta School".data, schoolType := SchoolType.GRAMMAR,
    gender := Gender.COED, level := Level.SECONDARY,
    address := "1 High Road, Barnet EN5 4DQ".data, postcode := "EN5 4DQ".data,
    cost := plainCost, competitiveness := 3, notes := [], borough := "BARNET".data,
    county := County.LONDON, color := SchoolColor.OTHER,
    coordinates := some { lat := 51, lng := 0 } }

/-- A geocoder that fails on every address with a NO_RESULTS error. -/
def failingGeo : Str → Except GeocodingError GeocodingResult :=
  fun _ => Except.error { message := "boom".data, code := GeoCode.NO_RESULTS }

/-- Witness for C4: a record with valid coordinates passes through the
validator untouched under the always-failing geocoder, and a record with
out-of-range coordinates keeps them and gains the geocoding-failure error
issue. -/
theorem C4_witness :
    ((validateSchool failingGeo (fun _ => true) goodCoordSchool).school = goodCoordSchool) ∧
    ((validateSchool failingGeo (fun _ => true) badCoordSchool).school.coordinates
        = badCoordSchool.coordinates ∧
      ∃ iss ∈ (validateSchool failingGeo (fun _ => true) badCoordSchool).issues,
        iss.severity = Severity.error ∧ iss.field = "coordinates".data ∧
        iss.message = "Geocoding failed: ".data ++
          (GeocodingError.mk "boom".data GeoCode.NO_RESULTS).message) :=
  ⟨C4_coordinate_repair_frame.1 failingGeo (fun _ => true) goodCoordSchool
      { lat := 51, lng := 0 } rfl (by decide),
   C4_coordinate_repair_frame.2 failingGeo (fun _ => true) badCoordSchool
      { message := "boom".data, code := GeoCode.NO_RESULTS }
      (by intro c hc; cases hc; decide) (by decide) rfl⟩

end SchoolMap
